import Mathlib

/-!
Verification of the NIFTY predictor core (src/predictor.py, class
NIFTYWebPredictor) against its natural-language specification.

Shallow embedding choices:
* Python floats are modelled as exact rationals (ℚ).
* Python `round(x, 2)` is modelled by `round2` (round half to even on the
  exact rational, as Python's round does on the underlying value).
* The f-string formats `{v:.2f}` and `{v:+.2f}` are modelled by `fmt2`
  and `fmt2p`.
* `numpy.random` is modelled by an explicit generator state `NpRandom`
  threaded through the draws; `np.random.seed(42)` replaces the ambient
  state with `npSeed 42`, and the value of each Gaussian draw is given by
  an arbitrary function `gauss : state → sd → value` (the draws' actual
  values are irrelevant to every claim, only that they are a function of
  the generator state and the standard deviation).
* Exceptions are modelled with `Except PredErr`: pandas `iloc` on an
  empty series raises, modelled as `PredErr.IndexError`.  The error names
  `InsufficientDataError`, `InvalidPriceError`, `NoDataError` from the
  spec's taxonomy are included as constructors so that claims about them
  can be stated; the source never raises them.
* `data['Close']` is modelled as the chronological list of closes
  `closes : List ℚ`; `data['Close'].iloc[-1]` is `closes.getLast?` and
  `data['Close'].tail(10)` is `closes.drop (closes.length - 10)`
  (pandas `tail(10)` returns the whole series when it is shorter).
* ℚ division is total with `x / 0 = 0`, whereas numpy produces NaN on
  `0.0 / 0.0` (it warns, it does not raise).  Statements about inputs
  whose lookback-start close could be 0 therefore carry an explicit
  nonzero hypothesis on that close, so that every theorem stays inside
  the domain where the rational model tracks the floating-point source.
-/

namespace NiftyPredictor

/-- Round half to even: the rounding used by Python's `round`. -/
def roundHalfEven (x : ℚ) : ℤ :=
  let f := Int.floor x
  let r := x - (f : ℚ)
  if r < 1/2 then f
  else if 1/2 < r then f + 1
  else if 2 ∣ f then f else f + 1

/-- Python `round(x, 2)`: round to two decimal places. -/
def round2 (x : ℚ) : ℚ := ((roundHalfEven (x * 100) : ℤ) : ℚ) / 100

/-- Python format `{x:.2f}`: fixed two decimal places, `-` sign taken from
the value itself (so a tiny negative value prints as `-0.00`). -/
def fmt2 (x : ℚ) : String :=
  let k := (roundHalfEven (x * 100)).natAbs
  let sgn := if x < 0 then "-" else ""
  let frac := k % 100
  sgn ++ toString (k / 100) ++ "." ++ (if frac < 10 then "0" else "") ++ toString frac

/-- Python format `{x:+.2f}`: as `fmt2` but with an explicit `+` on
non-negative values. -/
def fmt2p (x : ℚ) : String :=
  if x < 0 then fmt2 x else "+" ++ fmt2 x

/-- Substring test on strings (used to state that a reason string contains
a given fragment). -/
def strHasSubstr (hay needle : String) : Bool :=
  (List.range (hay.data.length + 1)).any
    (fun i => List.isPrefixOf needle.data (List.drop i hay.data))

/-- The recommendation actions occurring in `get_recommendation`. -/
inductive Action where
  | BUY
  | HOLD
  | CAUTION
  | SELL
  deriving DecidableEq

/-- The confidence levels occurring in `get_recommendation`. -/
inductive Confidence where
  | High
  | Medium
  deriving DecidableEq

/-- The dict returned by `NIFTYWebPredictor.get_recommendation`. -/
structure Recommendation where
  action : Action
  confidence : Confidence
  reason : String
  color : String
  deriving DecidableEq

/-- The three-key predictions dict returned by
`NIFTYWebPredictor.make_predictions` (keys `RNN`, `LSTM`, `CNN`). -/
structure Forecast where
  RNN : ℚ
  LSTM : ℚ
  CNN : ℚ
  deriving DecidableEq

/-- Error taxonomy: `IndexError` is what the source can actually raise
(pandas positional access on an empty series); the remaining names are the
spec's taxonomy, present so claims about them can be stated. -/
inductive PredErr where
  | IndexError
  | InsufficientDataError
  | InvalidPriceError
  | NoDataError
  deriving DecidableEq

/-- The if/elif threshold ladder of `get_recommendation`
(src/predictor.py lines 68-102), as a function of `change_pct`. -/
def recommendationLadder (change_pct : ℚ) : Recommendation :=
  if change_pct > 2 then
    { action := Action.BUY, confidence := Confidence.High,
      reason := "Strong upward trend predicted (+" ++ fmt2 change_pct ++ "%)",
      color := "#28a745" }
  else if change_pct > 0.5 then
    { action := Action.HOLD, confidence := Confidence.Medium,
      reason := "Moderate upward trend predicted (+" ++ fmt2 change_pct ++ "%)",
      color := "#ffc107" }
  else if change_pct > -0.5 then
    { action := Action.HOLD, confidence := Confidence.Medium,
      reason := "Stable trend predicted (" ++ fmt2p change_pct ++ "%)",
      color := "#6c757d" }
  else if change_pct > -2 then
    { action := Action.CAUTION, confidence := Confidence.Medium,
      reason := "Moderate downward trend predicted (" ++ fmt2 change_pct ++ "%)",
      color := "#fd7e14" }
  else
    { action := Action.SELL, confidence := Confidence.High,
      reason := "Strong downward trend predicted (" ++ fmt2 change_pct ++ "%)",
      color := "#dc3545" }

/-- `avg_prediction = sum(predictions.values()) / len(predictions)`
(src/predictor.py line 65; the dict has the three keys RNN, LSTM, CNN). -/
def avg_prediction (f : Forecast) : ℚ := (f.RNN + f.LSTM + f.CNN) / 3

/-- `change_pct = ((avg_prediction - current_price) / current_price) * 100`
(src/predictor.py line 66). -/
def change_pct_of (f : Forecast) (current_price : ℚ) : ℚ :=
  (avg_prediction f - current_price) / current_price * 100

/-- `NIFTYWebPredictor.get_recommendation` (src/predictor.py lines 63-102). -/
def get_recommendation (f : Forecast) (current_price : ℚ) : Recommendation :=
  recommendationLadder (change_pct_of f current_price)

/-- The trend computation of `make_predictions` (src/predictor.py lines
46-50), factored out under the spec's name:
`current_price = data['Close'].iloc[-1]`,
`recent_prices = data['Close'].tail(10).values`,
`trend = (current_price - recent_prices[0]) / recent_prices[0]`. -/
def estimateTrend (closes : List ℚ) : Except PredErr ℚ :=
  match closes.getLast? with
  | none => Except.error PredErr.IndexError
  | some current_price =>
    match (closes.drop (closes.length - 10)).head? with
    | none => Except.error PredErr.IndexError
    | some start => Except.ok ((current_price - start) / start)

/-- The trend multiplier `0.8` of the RNN entry (src/predictor.py line 56). -/
def wRNN : ℚ := 0.8

/-- The trend multiplier `1.2` of the LSTM entry (src/predictor.py line 57). -/
def wLSTM : ℚ := 1.2

/-- The trend multiplier `0.6` of the CNN entry (src/predictor.py line 58). -/
def wCNN : ℚ := 0.6

/-- The noise standard deviation `0.005` of the RNN draw
(src/predictor.py line 56). -/
def sdRNN : ℚ := 0.005

/-- The noise standard deviation `0.003` of the LSTM draw
(src/predictor.py line 57). -/
def sdLSTM : ℚ := 0.003

/-- The noise standard deviation `0.007` of the CNN draw
(src/predictor.py line 58). -/
def sdCNN : ℚ := 0.007

/-- The prediction formulas of `make_predictions` (src/predictor.py lines
55-59), factored out under the spec's name, with the three Gaussian draws
passed in: `round(current_price * (1 + trend * w + draw), 2)` with weights
0.8 / 1.2 / 0.6 for RNN / LSTM / CNN. -/
def predict (current_price trend nRNN nLSTM nCNN : ℚ) : Forecast :=
  { RNN := round2 (current_price * (1 + trend * wRNN + nRNN)),
    LSTM := round2 (current_price * (1 + trend * wLSTM + nLSTM)),
    CNN := round2 (current_price * (1 + trend * wCNN + nCNN)) }

/-- State of the ambient `numpy.random` generator. -/
structure NpRandom where
  state : ℕ
  deriving DecidableEq

/-- `np.random.seed(n)`: puts the generator in the state determined by `n`. -/
def npSeed (n : ℕ) : NpRandom := { state := n }

/-- `np.random.normal(0, sd)`: the drawn value is a function `gauss` of the
generator state and the standard deviation; the state advances. -/
def npNormal (gauss : ℕ → ℚ → ℚ) (g : NpRandom) (sd : ℚ) : ℚ × NpRandom :=
  (gauss g.state sd, { state := g.state + 1 })

/-- `NIFTYWebPredictor.make_predictions` (src/predictor.py lines 44-61):
takes the ambient generator state `g0`, which `np.random.seed(42)`
immediately overwrites, then performs the three draws in dict-literal
order (RNN sd 0.005, LSTM sd 0.003, CNN sd 0.007). -/
def make_predictions (gauss : ℕ → ℚ → ℚ) (g0 : NpRandom) (closes : List ℚ) :
    Except PredErr Forecast :=
  match closes.getLast? with
  | none => Except.error PredErr.IndexError
  | some current_price =>
    match estimateTrend closes with
    | Except.error e => Except.error e
    | Except.ok trend =>
      let g1 := npSeed 42
      let d1 := npNormal gauss g1 sdRNN
      let d2 := npNormal gauss d1.2 sdLSTM
      let d3 := npNormal gauss d2.2 sdCNN
      Except.ok (predict current_price trend d1.1 d2.1 d3.1)

/-- The buckets of the threshold ladder, with mutually exclusive guards
(each bucket carries the negation of all earlier strict comparisons, via
the equivalent single upper bound): the claim's reading of the ladder as a
partition of the number line into
`(2, ∞)`, `(0.5, 2]`, `(-0.5, 0.5]`, `(-2, -0.5]`, `(-∞, -2]`. -/
def ladderRel (x : ℚ) (p : Action × Confidence) : Prop :=
  (2 < x ∧ p = (Action.BUY, Confidence.High)) ∨
  (x ≤ 2 ∧ 0.5 < x ∧ p = (Action.HOLD, Confidence.Medium)) ∨
  (x ≤ 0.5 ∧ -0.5 < x ∧ p = (Action.HOLD, Confidence.Medium)) ∨
  (x ≤ -0.5 ∧ -2 < x ∧ p = (Action.CAUTION, Confidence.Medium)) ∨
  (x ≤ -2 ∧ p = (Action.SELL, Confidence.High))

/-! Helper lemmas shared by several results. -/

theorem getLast?_eq_some_getLastD (l : List ℚ) (h : l ≠ []) :
    l.getLast? = some (l.getLastD 0) := by
  rw [List.getLastD_eq_getLast?]
  cases hq : l.getLast? with
  | none => exact absurd (List.getLast?_eq_none_iff.mp hq) h
  | some v => rfl

theorem getElem?_eq_some_getD (l : List ℚ) (n : ℕ) (h : n < l.length) :
    l[n]? = some (l.getD n 0) := by
  rw [List.getD_eq_getElem?_getD, List.getElem?_eq_getElem h]
  rfl

theorem estimateTrend_eq_ok (closes : List ℚ) (lastv startv : ℚ)
    (hlast : closes.getLast? = some lastv)
    (hstart : closes[closes.length - 10]? = some startv) :
    estimateTrend closes = Except.ok ((lastv - startv) / startv) := by
  unfold estimateTrend
  rw [hlast, List.head?_drop, hstart]

/-- Claim C1: for every value of `changePct`, the recommendation ladder maps
it to exactly one (action, confidence) pair: the five buckets of `ladderRel`
are exhaustive and mutually exclusive, and the pair produced by the source's
top-down first-match evaluation (`recommendationLadder`) is the unique pair
related to `changePct`. -/
theorem ladder_exhaustive_and_mutually_exclusive (x : ℚ) :
    ladderRel x ((recommendationLadder x).action, (recommendationLadder x).confidence) ∧
    ∀ p : Action × Confidence, ladderRel x p →
      p = ((recommendationLadder x).action, (recommendationLadder x).confidence) := by
  unfold recommendationLadder
  rcases lt_or_le 2 x with h1 | h1
  · rw [if_pos h1]
    refine ⟨Or.inl ⟨h1, rfl⟩, ?_⟩
    rintro ⟨a, c⟩ (⟨_, e⟩ | ⟨hle, _, e⟩ | ⟨hle, _, e⟩ | ⟨hle, _, e⟩ | ⟨hle, e⟩)
    · exact e
    all_goals (exfalso; linarith)
  · rw [if_neg (not_lt.mpr h1)]
    rcases lt_or_le (0.5 : ℚ) x with h2 | h2
    · rw [if_pos h2]
      refine ⟨Or.inr (Or.inl ⟨h1, h2, rfl⟩), ?_⟩
      rintro ⟨a, c⟩ (⟨hgt, e⟩ | ⟨_, _, e⟩ | ⟨hle, _, e⟩ | ⟨hle, _, e⟩ | ⟨hle, e⟩)
      · exfalso; linarith
      · exact e
      all_goals (exfalso; linarith)
    · rw [if_neg (not_lt.mpr h2)]
      rcases lt_or_le (-0.5 : ℚ) x with h3 | h3
      · rw [if_pos h3]
        refine ⟨Or.inr (Or.inr (Or.inl ⟨h2, h3, rfl⟩)), ?_⟩
        rintro ⟨a, c⟩ (⟨hgt, e⟩ | ⟨_, hgt, e⟩ | ⟨_, _, e⟩ | ⟨hle, _, e⟩ | ⟨hle, e⟩)
        · exfalso; linarith
        · exfalso; linarith
        · exact e
        all_goals (exfalso; linarith)
      · rw [if_neg (not_lt.mpr h3)]
        rcases lt_or_le (-2 : ℚ) x with h4 | h4
        · rw [if_pos h4]
          refine ⟨Or.inr (Or.inr (Or.inr (Or.inl ⟨h3, h4, rfl⟩))), ?_⟩
          rintro ⟨a, c⟩ (⟨hgt, e⟩ | ⟨_, hgt, e⟩ | ⟨_, hgt, e⟩ | ⟨_, _, e⟩ | ⟨hle, e⟩)
          · exfalso; linarith
          · exfalso; linarith
          · exfalso; linarith
          · exact e
          · exfalso; linarith
        · rw [if_neg (not_lt.mpr h4)]
          refine ⟨Or.inr (Or.inr (Or.inr (Or.inr ⟨h4, rfl⟩))), ?_⟩
          rintro ⟨a, c⟩ (⟨hgt, e⟩ | ⟨_, hgt, e⟩ | ⟨_, hgt, e⟩ | ⟨_, hgt, e⟩ | ⟨_, e⟩)
          · exfalso; linarith
          · exfalso; linarith
          · exfalso; linarith
          · exfalso; linarith
          · exact e

/-- Claim C2, counterexample: the claim asserts that `changePct = -2.0`
yields CAUTION/Medium; on the source's ladder `-2 > -2` is false, so `-2.0`
falls all the way to the SELL/High branch. -/
theorem ladder_at_neg_two_counterexample :
    (recommendationLadder (-2)).action = Action.SELL ∧
    (recommendationLadder (-2)).confidence = Confidence.High ∧
    ¬ ((recommendationLadder (-2)).action = Action.CAUTION ∧
       (recommendationLadder (-2)).confidence = Confidence.Medium) := by
  norm_num [recommendationLadder]
  intro h
  exact Action.noConfusion h

/-- Claim C2, amended: every comparison in the ladder is strict, so a value
exactly at a threshold falls to the next lower bucket: `2.0` yields
HOLD/Medium while `2.0001` yields BUY/High, and `-2.0` falls past the
CAUTION bucket to SELL/High, as does `-2.0001`. -/
theorem ladder_boundaries_strict :
    (recommendationLadder 2).action = Action.HOLD ∧
    (recommendationLadder 2).confidence = Confidence.Medium ∧
    (recommendationLadder 2.0001).action = Action.BUY ∧
    (recommendationLadder 2.0001).confidence = Confidence.High ∧
    (recommendationLadder (-2)).action = Action.SELL ∧
    (recommendationLadder (-2)).confidence = Confidence.High ∧
    (recommendationLadder (-2.0001)).action = Action.SELL ∧
    (recommendationLadder (-2.0001)).confidence = Confidence.High := by
  norm_num [recommendationLadder]

/-- Claim C3: `get_recommendation` computes the average of the three
forecast values and `changePct = (avg - currentPrice) / currentPrice * 100`;
on currentPrice 21450.75 and forecasts (21520, 21580, 21490) the average is
21530, `changePct` is `31700/85803 ≈ 0.3693`, the action is HOLD with
confidence Medium, and the reason string contains "+0.37%". -/
theorem end_to_end_scenario_hold :
    avg_prediction ⟨21520, 21580, 21490⟩ = 21530 ∧
    change_pct_of ⟨21520, 21580, 21490⟩ 21450.75 = 31700 / 85803 ∧
    |change_pct_of ⟨21520, 21580, 21490⟩ 21450.75 - 0.3693| < 0.0002 ∧
    (get_recommendation ⟨21520, 21580, 21490⟩ 21450.75).action = Action.HOLD ∧
    (get_recommendation ⟨21520, 21580, 21490⟩ 21450.75).confidence = Confidence.Medium ∧
    strHasSubstr (get_recommendation ⟨21520, 21580, 21490⟩ 21450.75).reason "+0.37%" = true := by
  have hcp : change_pct_of ⟨21520, 21580, 21490⟩ 21450.75 = 31700 / 85803 := by
    norm_num [change_pct_of, avg_prediction]
  have hrhe : roundHalfEven (31700 / 85803 * 100) = 37 := by
    have h36 : Int.floor ((31700 : ℚ) / 85803 * 100) = 36 := by norm_num
    simp only [roundHalfEven, h36]
    norm_num
  have h1 : ¬ ((31700 : ℚ) / 85803 > 2) := by norm_num
  have h2 : ¬ ((31700 : ℚ) / 85803 > 0.5) := by norm_num
  have h3 : (31700 : ℚ) / 85803 > -0.5 := by norm_num
  have hrec : get_recommendation ⟨21520, 21580, 21490⟩ 21450.75 =
      { action := Action.HOLD, confidence := Confidence.Medium,
        reason := "Stable trend predicted (" ++ fmt2p (31700 / 85803) ++ "%)",
        color := "#6c757d" } := by
    rw [get_recommendation, hcp, recommendationLadder, if_neg h1, if_neg h2, if_pos h3]
  have hfmt : fmt2p (31700 / 85803) = "+0.37" := by
    have hx : ¬ ((31700 : ℚ) / 85803 < 0) := by norm_num
    simp only [fmt2p, if_neg hx, fmt2, hrhe]
    norm_num
    rfl
  refine ⟨by norm_num [avg_prediction], hcp, ?_, ?_, ?_, ?_⟩
  · rw [hcp]; rw [abs_lt]; constructor <;> norm_num
  · rw [hrec]
  · rw [hrec]
  · rw [hrec, hfmt]
    decide

/-- Claim C4, counterexample: the claim asserts that each label's output
equals the raw product `currentPrice * (1 + trend * weight + noise)`; the
source rounds that product to two decimal places, so with
currentPrice = 100, trend = 0 and an RNN noise draw of 0.000001 the RNN
output is 100 while the raw product is 100.0001. -/
theorem predict_not_raw_product_counterexample :
    (0 : ℚ) < 100 ∧
    (predict 100 0 0.000001 0 0).RNN = 100 ∧
    (100 : ℚ) * (1 + 0 * wRNN + 0.000001) ≠ 100 := by
  refine ⟨by norm_num, ?_, by norm_num [wRNN]⟩
  have hrhe : roundHalfEven ((100 : ℚ) * (1 + 0 * wRNN + 0.000001) * 100) = 10000 := by
    have hfl : Int.floor ((100 : ℚ) * (1 + 0 * wRNN + 0.000001) * 100) = 10000 := by
      norm_num [wRNN]
    simp only [roundHalfEven, hfl]
    norm_num [wRNN]
  simp only [predict, round2, hrhe]
  norm_num

/-- Claim C4, amended: for every positive currentPrice, trend and noise
draws, `predict` returns a Forecast over exactly the three fixed labels
RNN, LSTM, CNN, where each label's output is the raw product
`currentPrice * (1 + trend * weight_label + noise_label)` rounded to two
decimal places; the three per-label weights (0.8, 1.2, 0.6) are pairwise
distinct and lie in the range 0.6-1.2, and the three per-label noise
standard deviations (0.005, 0.003, 0.007) are pairwise distinct and lie in
the range 0.003-0.007. -/
theorem predict_shape_weights_and_noise (cp trend nR nL nC : ℚ) (h : 0 < cp) :
    predict cp trend nR nL nC =
      { RNN := round2 (cp * (1 + trend * wRNN + nR)),
        LSTM := round2 (cp * (1 + trend * wLSTM + nL)),
        CNN := round2 (cp * (1 + trend * wCNN + nC)) } ∧
    (wRNN ≠ wLSTM ∧ wRNN ≠ wCNN ∧ wLSTM ≠ wCNN) ∧
    (0.6 ≤ wRNN ∧ wRNN ≤ 1.2 ∧ 0.6 ≤ wLSTM ∧ wLSTM ≤ 1.2 ∧
      0.6 ≤ wCNN ∧ wCNN ≤ 1.2) ∧
    (sdRNN ≠ sdLSTM ∧ sdRNN ≠ sdCNN ∧ sdLSTM ≠ sdCNN) ∧
    (0.003 ≤ sdRNN ∧ sdRNN ≤ 0.007 ∧ 0.003 ≤ sdLSTM ∧ sdLSTM ≤ 0.007 ∧
      0.003 ≤ sdCNN ∧ sdCNN ≤ 0.007) := by
  refine ⟨rfl, ?_, ?_, ?_, ?_⟩ <;> norm_num [wRNN, wLSTM, wCNN, sdRNN, sdLSTM, sdCNN]

/-- Witness for `predict_shape_weights_and_noise` at
cp = 1, trend = 0, zero noise. -/
theorem predict_shape_weights_and_noise_witness :
    (0 : ℚ) < 1 ∧
    (predict 1 0 0 0 0 =
      { RNN := round2 (1 * (1 + 0 * wRNN + 0)),
        LSTM := round2 (1 * (1 + 0 * wLSTM + 0)),
        CNN := round2 (1 * (1 + 0 * wCNN + 0)) } ∧
    (wRNN ≠ wLSTM ∧ wRNN ≠ wCNN ∧ wLSTM ≠ wCNN) ∧
    (0.6 ≤ wRNN ∧ wRNN ≤ 1.2 ∧ 0.6 ≤ wLSTM ∧ wLSTM ≤ 1.2 ∧
      0.6 ≤ wCNN ∧ wCNN ≤ 1.2) ∧
    (sdRNN ≠ sdLSTM ∧ sdRNN ≠ sdCNN ∧ sdLSTM ≠ sdCNN) ∧
    (0.003 ≤ sdRNN ∧ sdRNN ≤ 0.007 ∧ 0.003 ≤ sdLSTM ∧ sdLSTM ≤ 0.007 ∧
      0.003 ≤ sdCNN ∧ sdCNN ≤ 0.007)) :=
  ⟨one_pos, predict_shape_weights_and_noise 1 0 0 0 0 one_pos⟩

/-- Claim C5: on every series at least as long as the 10-session lookback
window, `estimateTrend` returns
`(lastClose - closeAtLookbackStart) / closeAtLookbackStart`, where
`closeAtLookbackStart` is the close 10 sessions from the end (index
`length - 10`); there is no smoothing or outlier handling. -/
theorem estimateTrend_lookback_formula (closes : List ℚ) (h : 10 ≤ closes.length) :
    estimateTrend closes =
      Except.ok ((closes.getLastD 0 - closes.getD (closes.length - 10) 0) /
        closes.getD (closes.length - 10) 0) := by
  have hne : closes ≠ [] := by
    intro e
    rw [e] at h
    simp at h
  have hlt : closes.length - 10 < closes.length := by omega
  exact estimateTrend_eq_ok closes _ _ (getLast?_eq_some_getLastD closes hne)
    (getElem?_eq_some_getD closes _ hlt)

/-- Witness for `estimateTrend_lookback_formula` on a concrete 10-session
series. -/
theorem estimateTrend_lookback_formula_witness :
    10 ≤ ([1, 2, 3, 4, 5, 6, 7, 8, 9, 10] : List ℚ).length ∧
    estimateTrend [1, 2, 3, 4, 5, 6, 7, 8, 9, 10] =
      Except.ok ((([1, 2, 3, 4, 5, 6, 7, 8, 9, 10] : List ℚ).getLastD 0 -
          ([1, 2, 3, 4, 5, 6, 7, 8, 9, 10] : List ℚ).getD
            (([1, 2, 3, 4, 5, 6, 7, 8, 9, 10] : List ℚ).length - 10) 0) /
        ([1, 2, 3, 4, 5, 6, 7, 8, 9, 10] : List ℚ).getD
          (([1, 2, 3, 4, 5, 6, 7, 8, 9, 10] : List ℚ).length - 10) 0) :=
  ⟨by decide, estimateTrend_lookback_formula [1, 2, 3, 4, 5, 6, 7, 8, 9, 10] (by decide)⟩

/-- Claim C6, counterexample: the claim asserts that a series shorter than
the lookback window makes `estimateTrend` fail with
`InsufficientDataError`; on the two-session series [100, 110] the source
does not fail at all (pandas `tail(10)` silently returns the whole shorter
series) and returns the trend 1/10. -/
theorem estimateTrend_short_series_counterexample :
    ([100, 110] : List ℚ).length < 10 ∧
    estimateTrend [100, 110] = Except.ok (1 / 10) ∧
    estimateTrend [100, 110] ≠ Except.error PredErr.InsufficientDataError := by
  have hok : estimateTrend [100, 110] = Except.ok (1 / 10) := by
    simp only [estimateTrend]
    norm_num [List.getLast?, List.getLast]
  refine ⟨by decide, hok, ?_⟩
  rw [hok]
  intro h
  exact Except.noConfusion h

/-- Claim C6, amended: on every nonempty series shorter than the 10-session
lookback window, `estimateTrend` does not fail: it silently computes the
relative change over the whole (shorter) series,
`(lastClose - firstClose) / firstClose`. -/
theorem estimateTrend_short_series_no_failure (closes : List ℚ)
    (h0 : closes ≠ []) (h : closes.length < 10) :
    estimateTrend closes =
      Except.ok ((closes.getLastD 0 - closes.headD 0) / closes.headD 0) := by
  have hz : closes.length - 10 = 0 := by omega
  have hlt : 0 < closes.length := List.length_pos.mpr h0
  have hstart : closes[closes.length - 10]? = some (closes.getD (closes.length - 10) 0) :=
    getElem?_eq_some_getD closes _ (by omega)
  have hgd : closes.getD 0 0 = closes.headD 0 := by
    cases closes with
    | nil => rfl
    | cons a as => rfl
  rw [estimateTrend_eq_ok closes _ _ (getLast?_eq_some_getLastD closes h0)
    (by rw [hz] at hstart ⊢; exact hstart), hz] at *
  rw [hgd]

/-- Witness for `estimateTrend_short_series_no_failure` on the two-session
series [100, 110]. -/
theorem estimateTrend_short_series_no_failure_witness :
    ([100, 110] : List ℚ) ≠ [] ∧
    ([100, 110] : List ℚ).length < 10 ∧
    estimateTrend [100, 110] =
      Except.ok ((([100, 110] : List ℚ).getLastD 0 - ([100, 110] : List ℚ).headD 0) /
        ([100, 110] : List ℚ).headD 0) :=
  ⟨by simp, by decide,
    estimateTrend_short_series_no_failure [100, 110] (by simp) (by decide)⟩

/-- Claim C7, counterexample: the claim asserts that a non-positive current
price makes the predictor fail with `InvalidPriceError`; the source
performs no price validation.  On the series [100, 0] the last close
(current price) is 0 and the lookback-start close is 100, so the trend is
the ordinary float -1.0 and every product `0.0 * (1 + trend * w + noise)`
is exactly 0.0: the source returns the all-zero forecast instead of
failing, and the zero price flows on to the recommendation engine. -/
theorem zero_price_counterexample :
    make_predictions (fun _ _ => 0) (npSeed 0) [100, 0] = Except.ok ⟨0, 0, 0⟩ ∧
    make_predictions (fun _ _ => 0) (npSeed 0) [100, 0] ≠
      Except.error PredErr.InvalidPriceError := by
  have hok : make_predictions (fun _ _ => 0) (npSeed 0) [100, 0] =
      Except.ok ⟨0, 0, 0⟩ := by
    have hl : ([100, 0] : List ℚ).getLast? = some 0 := rfl
    have het : estimateTrend [(100 : ℚ), 0] = Except.ok ((0 - 100) / 100) :=
      estimateTrend_eq_ok [100, 0] 0 100 rfl rfl
    simp only [make_predictions, hl, het, npSeed, npNormal, predict]
    norm_num [round2, roundHalfEven]
  refine ⟨hok, ?_⟩
  rw [hok]
  intro h
  exact Except.noConfusion h

/-- Claim C7, amended: the predictor performs no validation of the current
price: on every series whose last close is 0 and whose lookback-start
close is nonzero (so the source's trend division is an ordinary float
division, the domain where the rational model tracks numpy),
`make_predictions` returns the all-zero Forecast instead of failing with
`InvalidPriceError`, so the zero current price reaches the recommendation
engine. -/
theorem make_predictions_zero_price_ok (gauss : ℕ → ℚ → ℚ) (g0 : NpRandom)
    (closes : List ℚ) (s : ℚ) (h : closes.getLast? = some 0)
    (hs : closes[closes.length - 10]? = some s) (hs0 : s ≠ 0) :
    make_predictions gauss g0 closes = Except.ok ⟨0, 0, 0⟩ := by
  have het : estimateTrend closes = Except.ok ((0 - s) / s) :=
    estimateTrend_eq_ok closes 0 s h hs
  simp only [make_predictions, h, het, npSeed, npNormal, predict]
  norm_num [round2, roundHalfEven]

/-- Witness for `make_predictions_zero_price_ok` on the two-session series
[100, 0]: last close 0, lookback-start close 100 ≠ 0. -/
theorem make_predictions_zero_price_ok_witness :
    ([100, (0 : ℚ)] : List ℚ).getLast? = some 0 ∧
    ([100, (0 : ℚ)] : List ℚ)[([100, (0 : ℚ)] : List ℚ).length - 10]? = some 100 ∧
    (100 : ℚ) ≠ 0 ∧
    make_predictions (fun _ _ => 1) (npSeed 7) [100, 0] = Except.ok ⟨0, 0, 0⟩ :=
  ⟨rfl, rfl, by norm_num,
    make_predictions_zero_price_ok (fun _ _ => 1) (npSeed 7) [100, 0] 100 rfl rfl
      (by norm_num)⟩

/-- Claim C8: `make_predictions` is deterministic under its fixed seed: the
call `np.random.seed(42)` overwrites whatever state the ambient generator
had, so two calls with the same closes series and the same underlying
Gaussian transform return identical forecasts regardless of the incoming
generator state. -/
theorem make_predictions_deterministic (gauss : ℕ → ℚ → ℚ) (closes : List ℚ)
    (g0 g0' : NpRandom) :
    make_predictions gauss g0 closes = make_predictions gauss g0' closes := rfl

/-- Claim C9: `estimateTrend` is scale-invariant: multiplying every price
in the series by a positive factor leaves the trend unchanged. -/
theorem estimateTrend_scale_invariant (closes : List ℚ) (c : ℚ) (hc : 0 < c)
    (h : 10 ≤ closes.length) :
    estimateTrend (closes.map (fun p => p * c)) = estimateTrend closes := by
  have hne : closes ≠ [] := by
    intro e
    rw [e] at h
    simp at h
  have hlt : closes.length - 10 < closes.length := by omega
  obtain ⟨startv, hstart⟩ : ∃ s, closes[closes.length - 10]? = some s :=
    ⟨_, List.getElem?_eq_getElem hlt⟩
  obtain ⟨lastv, hlast⟩ : ∃ v, closes.getLast? = some v := by
    cases hq : closes.getLast? with
    | none => exact absurd (List.getLast?_eq_none_iff.mp hq) hne
    | some v => exact ⟨v, rfl⟩
  have hml : (closes.map (fun p => p * c)).getLast? = some (lastv * c) := by
    rw [List.getLast?_map, hlast]
    rfl
  have hms : (closes.map (fun p => p * c))[(closes.map (fun p => p * c)).length - 10]? =
      some (startv * c) := by
    rw [List.length_map, List.getElem?_map, hstart]
    rfl
  rw [estimateTrend_eq_ok _ _ _ hml hms, estimateTrend_eq_ok _ _ _ hlast hstart]
  congr 1
  rcases eq_or_ne startv 0 with h0 | h0
  · rw [h0]
    simp
  · have hc0 : c ≠ 0 := ne_of_gt hc
    field_simp
    ring

/-- Witness for `estimateTrend_scale_invariant`: doubling a concrete
10-session series. -/
theorem estimateTrend_scale_invariant_witness :
    (0 : ℚ) < 2 ∧
    10 ≤ ([1, 2, 3, 4, 5, 6, 7, 8, 9, 10] : List ℚ).length ∧
    estimateTrend (([1, 2, 3, 4, 5, 6, 7, 8, 9, 10] : List ℚ).map (fun p => p * 2)) =
      estimateTrend [1, 2, 3, 4, 5, 6, 7, 8, 9, 10] :=
  ⟨two_pos, by decide,
    estimateTrend_scale_invariant [1, 2, 3, 4, 5, 6, 7, 8, 9, 10] 2 two_pos (by decide)⟩

/-- Claim C10: every successful result of `make_predictions` is the
forecast `predict cp trend d1 d2 d3` built from the seeded draws, whose
three values are the raw products rounded to two decimal places; in
particular each published predicted price is an integer multiple of 0.01. -/
theorem make_predictions_values_two_decimals (gauss : ℕ → ℚ → ℚ) (g0 : NpRandom)
    (closes : List ℚ) (f : Forecast)
    (h : make_predictions gauss g0 closes = Except.ok f) :
    (∃ cp trend, closes.getLast? = some cp ∧ estimateTrend closes = Except.ok trend ∧
      f = predict cp trend (gauss 42 sdRNN) (gauss 43 sdLSTM) (gauss 44 sdCNN)) ∧
    (∃ k : ℤ, f.RNN = k / 100) ∧ (∃ k : ℤ, f.LSTM = k / 100) ∧
    (∃ k : ℤ, f.CNN = k / 100) := by
  cases hl : closes.getLast? with
  | none =>
    rw [make_predictions, hl] at h
    exact Except.noConfusion h
  | some cp =>
    cases he : estimateTrend closes with
    | error e =>
      rw [make_predictions, hl] at h
      simp only [he] at h
      exact Except.noConfusion h
    | ok trend =>
      rw [make_predictions, hl] at h
      simp only [he, npSeed, npNormal] at h
      have hf : f = predict cp trend (gauss 42 sdRNN) (gauss 43 sdLSTM) (gauss 44 sdCNN) :=
        (Except.ok.inj h).symm
      refine ⟨⟨cp, trend, rfl, rfl, hf⟩, ?_, ?_, ?_⟩ <;>
        rw [hf] <;> exact ⟨_, rfl⟩

/-- Witness for `make_predictions_values_two_decimals` on the one-session
series [100] with an all-zero noise transform. -/
theorem make_predictions_values_two_decimals_witness :
    ((∃ cp trend, ([100] : List ℚ).getLast? = some cp ∧
        estimateTrend [100] = Except.ok trend ∧
        (⟨100, 100, 100⟩ : Forecast) =
          predict cp trend ((fun _ _ => (0 : ℚ)) 42 sdRNN)
            ((fun _ _ => (0 : ℚ)) 43 sdLSTM) ((fun _ _ => (0 : ℚ)) 44 sdCNN)) ∧
      (∃ k : ℤ, (⟨100, 100, 100⟩ : Forecast).RNN = k / 100) ∧
      (∃ k : ℤ, (⟨100, 100, 100⟩ : Forecast).LSTM = k / 100) ∧
      (∃ k : ℤ, (⟨100, 100, 100⟩ : Forecast).CNN = k / 100)) :=
  make_predictions_values_two_decimals (fun _ _ => 0) (npSeed 3) [100] ⟨100, 100, 100⟩
    (by
      have het : estimateTrend [(100 : ℚ)] = Except.ok ((100 - 100) / 100) :=
        estimateTrend_eq_ok [100] 100 100 rfl rfl
      simp only [make_predictions, het, npSeed, npNormal, predict]
      norm_num [round2, roundHalfEven, wRNN, wLSTM, wCNN, List.getLast?, List.getLast])

end NiftyPredictor
